import Mathlib

set_option linter.unusedVariables false

/-!
Shallow embedding of the qq2mc bridge (src/main.py).

The Python program is a single-file bridge between a QQ group chat (NapCat
event stream) and a Minecraft server's RCON console.  The embedding below
translates the pure/decidable core of each function of src/main.py:

* `parse__chain` (main.py lines 33-54): message-segment normalization.
* `execute_rcon_command` (lines 57-91): the retry/reconnect loop, modelled
  over an oracle that supplies, for each send attempt and each reconnect
  attempt, the outcome the real connection would have produced.  Exceptions
  of the Python code are values of `SendResult`; the `str | None` return
  becomes `Option String`, and the trace additionally counts send and
  reconnect attempts so that the retry policy is provable.
* `query_online_players` (lines 93-107): the "list" response parser, taking
  the `execute_rcon_command` result as an `Option String`.
* `send_to_mc` (lines 110-119): the tellraw broadcast.  The JSON
  serialization to the wire string is abstracted: the command is kept as the
  structured payload (`RconCommand.tellraw`), since no claim depends on the
  exact `json.dumps` output.
* the per-event body of `main` (lines 146-176): group filter, forwarding,
  and the command dispatch `match`, producing the observable effects
  (console calls issued and chat replies sent) as data.

Python `str.strip` is modelled by `pyStrip` and `str.split(sep)` by
`pySplit`, both defined below over the character list of the string with
Python's semantics (strip removes whitespace from both ends; split on a
non-empty separator cuts at each non-overlapping occurrence, left to
right, and yields the one-element list of the whole string when the
separator does not occur).  Truthiness of an optional string (`a or b`)
is `pyStrOr` (both `None` and `""` are falsy).
-/

/-- Python `str.strip()`: drop whitespace characters from both ends. -/
def pyStrip (s : String) : String :=
  ⟨((s.data.dropWhile Char.isWhitespace).reverse.dropWhile Char.isWhitespace).reverse⟩

/-- Worker for `pySplit`: scans the character list left to right, cutting
at each occurrence of `sep`; `acc` is the current chunk reversed, `fuel`
bounds the number of scanning steps (each step consumes at least one
character, so `fuel = length` at the top level never runs out). -/
def pySplitGo (sep : List Char) : Nat → List Char → List Char → List (List Char)
  | _, [], acc => [acc.reverse]
  | 0, l, acc => [acc.reverse ++ l]
  | fuel + 1, c :: rest, acc =>
    if sep.isPrefixOf (c :: rest) then
      acc.reverse :: pySplitGo sep fuel ((c :: rest).drop sep.length) []
    else
      pySplitGo sep fuel rest (c :: acc)

/-- Python `str.split(sep)` for a non-empty separator. -/
def pySplit (s sep : String) : List String :=
  (pySplitGo sep.data s.data.length s.data []).map (fun cs => ⟨cs⟩)

/-- Message segments of the NapCat SDK consumed by `parse__chain`
(main.py lines 36-52): `Text`, `Image`, `At`, `Face`, `Reply`, `Forward`,
and the fall-through `UnknownMessageSegment`. -/
inductive MessageSegment where
  | Text (text : String)
  | Image
  | At (qq : String) (name : Option String)
  | Face
  | Reply
  | Forward
  | UnknownMessageSegment
deriving DecidableEq, Repr

/-- The strings appended to `text_buffer` by one iteration of the loop in
`parse__chain` (main.py lines 36-52); the `case _: pass` arm appends
nothing. -/
def segmentBuffer : MessageSegment → List String
  | MessageSegment.Text t => [t]
  | MessageSegment.Image => ["[图片]"]
  | MessageSegment.At q n => ["@" ++ (match n with | some name => name | none => q) ++ " "]
  | MessageSegment.Face => ["[表情]"]
  | MessageSegment.Reply => ["[回复]"]
  | MessageSegment.Forward => ["[转发]"]
  | MessageSegment.UnknownMessageSegment => []

/-- `parse__chain` (main.py lines 33-54): renders each segment in order and
joins the buffer with `"".join`. -/
def parse__chain (chain : List MessageSegment) : String :=
  String.join (chain.flatMap segmentBuffer)

/-- Outcome of one `rcon.send_cmd` call inside `execute_rcon_command`:
`ok` is a normal return, `connError` is one of the caught connection-class
exceptions (`ClientNotConnectedError`, `RCONConnectionError`, `OSError`,
main.py line 68), `otherError` is any other exception (line 87). -/
inductive SendResult where
  | ok (response : String)
  | connError
  | otherError
deriving DecidableEq, Repr

/-- Oracle describing the behaviour of the RCON connection during one
`execute_rcon_command` call: `send k` is the outcome of the k-th
`send_cmd` attempt, `reconnect k` tells whether the k-th
close-and-reconnect attempt (main.py lines 80-81) succeeds. -/
structure RconOracle where
  send : Nat → SendResult
  reconnect : Nat → Bool

/-- Observable result of `execute_rcon_command`: the returned value
(`str | None` becomes `Option String`) together with how many `send_cmd`
attempts and how many reconnect attempts were performed. -/
structure ExecTrace where
  result : Option String
  sends : Nat
  reconnects : Nat
deriving DecidableEq, Repr

/-- The loop of `execute_rcon_command` (main.py lines 62-91).  `fuel` is
`max_retries - attempt`, so `fuel = 0` is the Python test
`attempt == max_retries`; `sends` and `reconnects` count the attempts made
so far and index the oracle. -/
def execLoop (o : RconOracle) : Nat → Nat → Nat → ExecTrace
  | 0, sends, reconnects =>
    match o.send sends with
    | SendResult.ok r => ⟨some r, sends + 1, reconnects⟩
    | SendResult.otherError => ⟨none, sends + 1, reconnects⟩
    | SendResult.connError => ⟨none, sends + 1, reconnects⟩
  | fuel + 1, sends, reconnects =>
    match o.send sends with
    | SendResult.ok r => ⟨some r, sends + 1, reconnects⟩
    | SendResult.otherError => ⟨none, sends + 1, reconnects⟩
    | SendResult.connError =>
      if o.reconnect reconnects then
        execLoop o fuel (sends + 1) (reconnects + 1)
      else
        ⟨none, sends + 1, reconnects + 1⟩

/-- `execute_rcon_command` (main.py lines 57-91) run against an oracle:
starts the loop at attempt 0 with no sends or reconnects performed. -/
def execute_rcon_command (o : RconOracle) (max_retries : Nat) : ExecTrace :=
  execLoop o max_retries 0 0

/-- `query_online_players` (main.py lines 93-107), with the
`execute_rcon_command` result supplied as `resp`: `None` propagates,
otherwise split on `"online: "`, require exactly two parts, strip the tail
and split it on commas (an empty stripped tail is zero players). -/
def query_online_players (resp : Option String) : Option (List String) :=
  match resp with
  | none => none
  | some response =>
    let part := pySplit response "online: "
    if part.length ≠ 2 then
      none
    else
      let players_str := pyStrip (part.getD 1 "")
      some (if players_str = "" then [] else (pySplit players_str ",").map pyStrip)

/-- Sender identity carried by a `GroupMessageEvent`: `card` (group display
name) and `nickname`, both possibly absent. -/
structure Sender where
  card : Option String
  nickname : Option String
deriving DecidableEq, Repr

/-- Python string truthiness for `a or b`: an optional string falls through
to `b` when it is `None` or empty. -/
def pyStrOr (a : Option String) (b : String) : String :=
  match a with
  | none => b
  | some s => if s = "" then b else s

/-- `sender.card or sender.nickname or "未知用户"` (main.py line 156). -/
def resolve_display_name (sender : Sender) : String :=
  pyStrOr sender.card (pyStrOr sender.nickname "未知用户")

/-- One styled text run of the tellraw payload (main.py lines 111-115);
the third dict of the Python payload has no `"bold"` key, hence
`bold : Option Bool`. -/
structure TellrawRun where
  text : String
  color : String
  bold : Option Bool
deriving DecidableEq, Repr

/-- A console command issued through `execute_rcon_command`: the `"list"`
query (main.py line 95) or the `tellraw @a <payload>` broadcast
(main.py line 116, JSON serialization abstracted to the payload itself). -/
inductive RconCommand where
  | listPlayers
  | tellraw (payload : List TellrawRun)
deriving DecidableEq, Repr

/-- `send_to_mc` (main.py lines 110-119): builds the three-run tellraw
payload for `nickname` and `content`.  The result of the inner
`execute_rcon_command` call is discarded by the Python code. -/
def send_to_mc (nickname content : String) : RconCommand :=
  RconCommand.tellraw
    [⟨"[QQ] ", "gold", some true⟩,
     ⟨nickname ++ ": ", "aqua", none⟩,
     ⟨content, "white", none⟩]

/-- Observable effects of handling one chat event: the console commands
passed to `execute_rcon_command`, in order, and the texts sent back to the
group via `event.send_msg`, in order. -/
structure EventEffects where
  consoleCalls : List RconCommand
  replies : List String
deriving DecidableEq, Repr

/-- Body of the `GroupMessageEvent` arm of `main` (main.py lines 150-174)
for an event that already matched the target group.  `napcat_version` is
the external `napcat.__version__` string; `forwardResp` is the (discarded)
result of the `execute_rcon_command` call made by `send_to_mc`, and
`queryResp` the result of the `execute_rcon_command rcon "list"` call made
by `query_online_players`. -/
def handle_event (napcat_version : String) (sender : Sender)
    (message : List MessageSegment) (forwardResp queryResp : Option String) :
    EventEffects :=
  let raw_content := parse__chain message
  let clean_content := pyStrip raw_content
  let forwardCalls : List RconCommand :=
    if clean_content ≠ "" then
      [send_to_mc (resolve_display_name sender) clean_content]
    else []
  if clean_content = ".mc" then
    match query_online_players queryResp with
    | none =>
      ⟨forwardCalls ++ [RconCommand.listPlayers],
       ["无法获取在线玩家列表，请检查 RCON 连接。"]⟩
    | some [] =>
      ⟨forwardCalls ++ [RconCommand.listPlayers], ["当前没有在线玩家。"]⟩
    | some players =>
      ⟨forwardCalls ++ [RconCommand.listPlayers],
       ["当前在线玩家(" ++ toString players.length ++ " / 40): "
          ++ String.intercalate ", " players]⟩
  else if clean_content = ".ping" then
    ⟨forwardCalls, ["Pong! 机器人在线。"]⟩
  else if clean_content = ".version" then
    ⟨forwardCalls, ["NapCat SDK 版本：" ++ napcat_version]⟩
  else
    ⟨forwardCalls, []⟩

/-- A NapCat event as matched by `main` (main.py lines 149-176): a group
message with its group id, sender and segment chain, or any other event
(ignored by the `case _` arm). -/
inductive NapCatEvent where
  | groupMessage (group_id : Int) (sender : Sender) (message : List MessageSegment)
  | other
deriving DecidableEq, Repr

/-- The `match event` of `main` (main.py lines 149-176): only a
`GroupMessageEvent` whose group id equals `target_group` is handled;
everything else has no effect. -/
def process_event (target_group : Int) (napcat_version : String)
    (forwardResp queryResp : Option String) : NapCatEvent → EventEffects
  | NapCatEvent.groupMessage gid sender message =>
    if gid = target_group then
      handle_event napcat_version sender message forwardResp queryResp
    else ⟨[], []⟩
  | NapCatEvent.other => ⟨[], []⟩

/-- `execLoop` when every send attempt raises a connection error and every
reconnect succeeds: the loop burns all its fuel, one send per unit plus the
final one, one reconnect per unit. -/
lemma execLoop_all_conn_fail (o : RconOracle)
    (hs : ∀ k, o.send k = SendResult.connError)
    (hr : ∀ k, o.reconnect k = true) :
    ∀ fuel sends reconnects,
      execLoop o fuel sends reconnects =
        ⟨none, sends + fuel + 1, reconnects + fuel⟩ := by
  intro fuel
  induction fuel with
  | zero =>
    intro s r
    simp [execLoop, hs s]
  | succ f ih =>
    intro s r
    rw [execLoop]
    simp only [hs s, hr r, if_true]
    rw [ih (s + 1) (r + 1)]
    simp [ExecTrace.mk.injEq]
    omega

/-- `execLoop` when the sends fail with connection errors for `j` steps
(each followed by a successful reconnect) and the `j`-th send raises a
non-connection error: the loop stops right there. -/
lemma execLoop_other_error (o : RconOracle) :
    ∀ j fuel sends reconnects, j ≤ fuel →
      (∀ k, k < j → o.send (sends + k) = SendResult.connError) →
      (∀ k, k < j → o.reconnect (reconnects + k) = true) →
      o.send (sends + j) = SendResult.otherError →
      execLoop o fuel sends reconnects =
        ⟨none, sends + j + 1, reconnects + j⟩ := by
  intro j
  induction j with
  | zero =>
    intro fuel s r _ _ _ hother
    simp only [Nat.add_zero] at hother
    cases fuel with
    | zero => simp [execLoop, hother]
    | succ f => simp [execLoop, hother]
  | succ j ih =>
    intro fuel s r hle hconn hrec hother
    obtain ⟨f, rfl⟩ : ∃ f, fuel = f + 1 := ⟨fuel - 1, by omega⟩
    have h0 : o.send s = SendResult.connError := by
      simpa using hconn 0 (by omega)
    have hr0 : o.reconnect r = true := by
      simpa using hrec 0 (by omega)
    rw [execLoop]
    simp only [h0, hr0, if_true]
    have hstep := ih f (s + 1) (r + 1) (by omega)
      (fun k hk => by
        have := hconn (k + 1) (by omega)
        have he : s + (k + 1) = s + 1 + k := by omega
        rwa [he] at this)
      (fun k hk => by
        have := hrec (k + 1) (by omega)
        have he : r + (k + 1) = r + 1 + k := by omega
        rwa [he] at this)
      (by
        have he : s + (j + 1) = s + 1 + j := by omega
        rwa [he] at hother)
    rw [hstep]
    simp [ExecTrace.mk.injEq]
    omega

/-- C10: `parse__chain` is total (it is a Lean function into `String`, so
it never fails), returns the empty string on the empty segment sequence,
and its output is unchanged by appending one `UnknownMessageSegment`. -/
theorem parse_chain_total_unknown_invariant :
    parse__chain [] = "" ∧
    ∀ chain : List MessageSegment,
      parse__chain (chain ++ [MessageSegment.UnknownMessageSegment]) =
        parse__chain chain := by
  refine ⟨rfl, ?_⟩
  intro chain
  simp [parse__chain, segmentBuffer]

/-- C6: against a connection whose sends always fail with a connection
error (reconnects succeeding, so that the retry budget is actually
consumed), `execute_rcon_command` returns `None` (Failure) after exactly
`max_retries + 1` send attempts and exactly — in particular at most —
`max_retries` reconnect attempts. -/
theorem execute_always_fail_retry_budget (o : RconOracle) (max_retries : Nat)
    (hs : ∀ k, o.send k = SendResult.connError)
    (hr : ∀ k, o.reconnect k = true) :
    execute_rcon_command o max_retries =
      ⟨none, max_retries + 1, max_retries⟩ := by
  have h := execLoop_all_conn_fail o hs hr max_retries 0 0
  simpa [execute_rcon_command] using h

/-- Witness for C6 at a concrete always-failing oracle and
`max_retries = 2`: three sends, two reconnects, Failure. -/
theorem execute_always_fail_retry_budget_witness :
    execute_rcon_command ⟨fun _ => SendResult.connError, fun _ => true⟩ 2 =
      ⟨none, 3, 2⟩ :=
  execute_always_fail_retry_budget
    ⟨fun _ => SendResult.connError, fun _ => true⟩ 2
    (fun _ => rfl) (fun _ => rfl)

/-- C7: `execute_rcon_command` always yields its outcome as a value
(`some` response on success, `none` for Failure — it is a total function,
exceptions of the Python code having been mapped to `SendResult` values),
and whenever a send attempt fails with a non-connection error the call
returns Failure immediately: no further send (retry) and no further
reconnect is performed after that attempt. -/
theorem execute_returns_value_other_error_no_retry (o : RconOracle)
    (max_retries : Nat) :
    ((execute_rcon_command o max_retries).result = none ∨
      ∃ s, (execute_rcon_command o max_retries).result = some s) ∧
    (∀ j, j ≤ max_retries →
      (∀ k, k < j → o.send k = SendResult.connError) →
      (∀ k, k < j → o.reconnect k = true) →
      o.send j = SendResult.otherError →
      execute_rcon_command o max_retries = ⟨none, j + 1, j⟩) := by
  constructor
  · cases h : (execute_rcon_command o max_retries).result with
    | none => exact Or.inl rfl
    | some s => exact Or.inr ⟨s, rfl⟩
  · intro j hj hconn hrec hother
    have h := execLoop_other_error o j max_retries 0 0 hj
      (fun k hk => by simpa using hconn k hk)
      (fun k hk => by simpa using hrec k hk)
      (by simpa using hother)
    simpa [execute_rcon_command] using h

/-- Witness for C7 at a concrete oracle whose first send raises a
connection error and whose second raises a non-connection error with
`max_retries = 3`: Failure after two sends and one reconnect. -/
theorem execute_returns_value_other_error_no_retry_witness :
    execute_rcon_command
      ⟨fun k => if k = 0 then SendResult.connError else SendResult.otherError,
       fun _ => true⟩ 3 = ⟨none, 2, 1⟩ :=
  (execute_returns_value_other_error_no_retry
    ⟨fun k => if k = 0 then SendResult.connError else SendResult.otherError,
     fun _ => true⟩ 3).2 1 (by omega) (by decide) (by decide) rfl

/-- Normalizing a chain made only of `UnknownMessageSegment`s yields the
empty string: each such segment contributes nothing to the buffer. -/
lemma parse_chain_all_unknown (message : List MessageSegment)
    (h : ∀ seg ∈ message, seg = MessageSegment.UnknownMessageSegment) :
    parse__chain message = "" := by
  induction message with
  | nil => rfl
  | cons s rest ih =>
    have hs := h s (by simp)
    subst hs
    have hrest := ih (fun seg hseg => h seg (by simp [hseg]))
    simpa [parse__chain, segmentBuffer] using hrest

/-- C1 counterexample: on the concrete event whose only segment is the
text `".ping"`, the handler does reply "Pong! 机器人在线。" but performs one
console (RCON) call — the pre-dispatch `send_to_mc` forwarding of
`".ping"` — so "zero console calls" fails. -/
theorem ping_zero_console_calls_counterexample :
    pyStrip (parse__chain [MessageSegment.Text ".ping"]) = ".ping" ∧
    (handle_event "1.0" ⟨some "alice", none⟩ [MessageSegment.Text ".ping"]
        none none).replies = ["Pong! 机器人在线。"] ∧
    (handle_event "1.0" ⟨some "alice", none⟩ [MessageSegment.Text ".ping"]
        none none).consoleCalls = [send_to_mc "alice" ".ping"] ∧
    (handle_event "1.0" ⟨some "alice", none⟩ [MessageSegment.Text ".ping"]
        none none).consoleCalls ≠ [] := by
  refine ⟨by decide, by decide, by decide, by decide⟩

/-- C1 amended: for every event whose normalized stripped text is exactly
`".ping"`, the handler replies "Pong! 机器人在线。" directly via the event's
reply capability and the dispatch arm itself performs no console call, but
the event handling performs exactly one console call: the pre-dispatch
forwarding of the text `".ping"` into the game. -/
theorem ping_direct_reply_with_forwarding (v : String) (sender : Sender)
    (message : List MessageSegment) (fr qr : Option String)
    (h : pyStrip (parse__chain message) = ".ping") :
    (handle_event v sender message fr qr).replies = ["Pong! 机器人在线。"] ∧
    (handle_event v sender message fr qr).consoleCalls
      = [send_to_mc (resolve_display_name sender) ".ping"] := by
  simp [handle_event, h]

/-- Witness for the amended C1 at the concrete `".ping"` event. -/
theorem ping_direct_reply_with_forwarding_witness :
    pyStrip (parse__chain [MessageSegment.Text ".ping"]) = ".ping" ∧
    ((handle_event "1.0" ⟨none, some "bob"⟩ [MessageSegment.Text ".ping"]
        none none).replies = ["Pong! 机器人在线。"] ∧
     (handle_event "1.0" ⟨none, some "bob"⟩ [MessageSegment.Text ".ping"]
        none none).consoleCalls
       = [send_to_mc (resolve_display_name ⟨none, some "bob"⟩) ".ping"]) :=
  ⟨by decide,
   ping_direct_reply_with_forwarding "1.0" ⟨none, some "bob"⟩
     [MessageSegment.Text ".ping"] none none (by decide)⟩

/-- C2: for every group-message event matching the target group whose
normalized stripped text is non-empty, the first console call of the event
handling is the `send_to_mc` forwarding of that text — it happens before
any console call of the command dispatch. -/
theorem forward_before_dispatch (target : Int) (v : String) (gid : Int)
    (sender : Sender) (message : List MessageSegment) (fr qr : Option String)
    (hg : gid = target)
    (h : pyStrip (parse__chain message) ≠ "") :
    (process_event target v fr qr
        (NapCatEvent.groupMessage gid sender message)).consoleCalls.head?
      = some (send_to_mc (resolve_display_name sender)
          (pyStrip (parse__chain message))) := by
  subst hg
  by_cases h1 : pyStrip (parse__chain message) = ".mc"
  · rcases hq : query_online_players qr with _ | (_ | ⟨p, ps⟩) <;>
      simp [process_event, handle_event, h, h1, hq]
  · by_cases h2 : pyStrip (parse__chain message) = ".ping"
    · simp [process_event, handle_event, h, h1, h2]
    · by_cases h3 : pyStrip (parse__chain message) = ".version"
      · simp [process_event, handle_event, h, h1, h2, h3]
      · simp [process_event, handle_event, h, h1, h2, h3]

/-- Witness for C2 at a concrete `".mc"` event: the forward is issued
first, then the dispatch's `list` query. -/
theorem forward_before_dispatch_witness :
    pyStrip (parse__chain [MessageSegment.Text ".mc"]) ≠ "" ∧
    (process_event 7 "1.0" none none
        (NapCatEvent.groupMessage 7 ⟨some "u", none⟩
          [MessageSegment.Text ".mc"])).consoleCalls.head?
      = some (send_to_mc (resolve_display_name ⟨some "u", none⟩)
          (pyStrip (parse__chain [MessageSegment.Text ".mc"]))) :=
  ⟨by decide,
   forward_before_dispatch 7 "1.0" 7 ⟨some "u", none⟩
     [MessageSegment.Text ".mc"] none none rfl (by decide)⟩

/-- C3 counterexample: the concrete text `".foo"` is non-empty, starts
with `"."` and is none of the recognized commands, yet it IS forwarded to
the game (one `send_to_mc` console call), refuting "never forwarded". -/
theorem unrecognized_dot_ignored_counterexample :
    pyStrip (parse__chain [MessageSegment.Text ".foo"]) = ".foo" ∧
    (".foo" : String).data.head? = some '.' ∧
    (handle_event "1.0" ⟨some "u", none⟩ [MessageSegment.Text ".foo"]
        none none).consoleCalls = [send_to_mc "u" ".foo"] ∧
    (handle_event "1.0" ⟨some "u", none⟩ [MessageSegment.Text ".foo"]
        none none).consoleCalls ≠ [] := by
  refine ⟨by decide, by decide, by decide, by decide⟩

/-- C3 amended: for every non-empty stripped text starting with `"."` that
is not one of `".mc"`, `".ping"`, `".version"`, the dispatch `match` adds
no action (no reply and no dispatch-level console call), but the event
handling still forwards the text to the game through the pre-dispatch
`send_to_mc` call. -/
theorem unrecognized_dot_no_dispatch_still_forwarded (v : String)
    (sender : Sender) (message : List MessageSegment) (fr qr : Option String)
    (h : pyStrip (parse__chain message) ≠ "")
    (hdot : (pyStrip (parse__chain message)).data.head? = some '.')
    (h1 : pyStrip (parse__chain message) ≠ ".mc")
    (h2 : pyStrip (parse__chain message) ≠ ".ping")
    (h3 : pyStrip (parse__chain message) ≠ ".version") :
    handle_event v sender message fr qr =
      ⟨[send_to_mc (resolve_display_name sender)
          (pyStrip (parse__chain message))], []⟩ := by
  simp [handle_event, h, h1, h2, h3]

/-- Witness for the amended C3 at the concrete `".foo"` event. -/
theorem unrecognized_dot_no_dispatch_still_forwarded_witness :
    handle_event "1.0" ⟨some "u", none⟩ [MessageSegment.Text ".foo"]
        none none =
      ⟨[send_to_mc (resolve_display_name ⟨some "u", none⟩)
          (pyStrip (parse__chain [MessageSegment.Text ".foo"]))], []⟩ :=
  unrecognized_dot_no_dispatch_still_forwarded "1.0" ⟨some "u", none⟩
    [MessageSegment.Text ".foo"] none none
    (by decide) (by decide) (by decide) (by decide) (by decide)

/-- C4 counterexample: on the concrete event with text `".list"` (and a
console that would answer the `list` query), the handler issues no
`list` console command and sends no reply — `".list"` does not route to
the query-players handler; the same holds for `".cx"`. -/
theorem list_cx_route_counterexample :
    RconCommand.listPlayers ∉
      (handle_event "1.0" ⟨some "u", none⟩ [MessageSegment.Text ".list"]
        none (some "There are 2 of a max of 20 players online: Alex, Steve")).consoleCalls ∧
    (handle_event "1.0" ⟨some "u", none⟩ [MessageSegment.Text ".list"]
        none (some "There are 2 of a max of 20 players online: Alex, Steve")).replies = [] ∧
    RconCommand.listPlayers ∉
      (handle_event "1.0" ⟨some "u", none⟩ [MessageSegment.Text ".cx"]
        none (some "There are 2 of a max of 20 players online: Alex, Steve")).consoleCalls ∧
    (handle_event "1.0" ⟨some "u", none⟩ [MessageSegment.Text ".cx"]
        none (some "There are 2 of a max of 20 players online: Alex, Steve")).replies = [] := by
  refine ⟨by decide, by decide, by decide, by decide⟩

/-- C4 amended: only the stripped text `".mc"` routes to the query-players
handler (the dispatch then issues the `list` console command after the
pre-dispatch forwarding); `".list"` and `".cx"` are not recognized
commands — they produce no query console call and no reply, only the
pre-dispatch forwarding. -/
theorem only_mc_routes_to_query (v : String) (sender : Sender)
    (message : List MessageSegment) (fr qr : Option String) :
    (pyStrip (parse__chain message) = ".mc" →
      (handle_event v sender message fr qr).consoleCalls
        = [send_to_mc (resolve_display_name sender) ".mc",
           RconCommand.listPlayers]) ∧
    ((pyStrip (parse__chain message) = ".list" ∨
        pyStrip (parse__chain message) = ".cx") →
      (handle_event v sender message fr qr).consoleCalls
        = [send_to_mc (resolve_display_name sender)
            (pyStrip (parse__chain message))] ∧
      (handle_event v sender message fr qr).replies = []) := by
  constructor
  · intro h1
    rcases hq : query_online_players qr with _ | (_ | ⟨p, ps⟩) <;>
      simp [handle_event, h1, hq]
  · rintro (h | h) <;> simp [handle_event, h]

/-- Witness for the amended C4 at the concrete `".mc"` event. -/
theorem only_mc_routes_to_query_witness :
    pyStrip (parse__chain [MessageSegment.Text ".mc"]) = ".mc" ∧
    (handle_event "1.0" ⟨some "u", none⟩ [MessageSegment.Text ".mc"]
        none none).consoleCalls
      = [send_to_mc (resolve_display_name ⟨some "u", none⟩) ".mc",
         RconCommand.listPlayers] :=
  ⟨by decide,
   (only_mc_routes_to_query "1.0" ⟨some "u", none⟩
     [MessageSegment.Text ".mc"] none none).1 (by decide)⟩

/-- C5 counterexample: on a console response without the `"online: "`
marker, `query_online_players` returns `None` and the chat reply is the
fixed connection-trouble message "无法获取在线玩家列表，请检查 RCON 连接。",
which does not contain the raw response text (its split on the raw text
has one part, i.e. no occurrence) — there is no raw-text fallback. -/
theorem query_raw_text_fallback_counterexample :
    query_online_players (some "Server did not understand") = none ∧
    (handle_event "1.0" ⟨some "u", none⟩ [MessageSegment.Text ".mc"]
        none (some "Server did not understand")).replies
      = ["无法获取在线玩家列表，请检查 RCON 连接。"] ∧
    (pySplit "无法获取在线玩家列表，请检查 RCON 连接。"
        "Server did not understand").length = 1 := by
  refine ⟨by decide, by decide, by decide⟩

/-- C5 amended: given the console response
`"There are 2 of a max of 20 players online: Alex, Steve"` the query
handler parses exactly the two players `["Alex", "Steve"]` and reports
them to chat; given a response ending in `"online: "` with an empty tail
it parses zero players and reports "no players online"; the parse never
fails (it always returns a value, `None` on an unexpected format), and on
a response without the `"online: "` marker the handler replies with the
connection-trouble message rather than the raw text. -/
theorem query_parse_results :
    query_online_players
        (some "There are 2 of a max of 20 players online: Alex, Steve")
      = some ["Alex", "Steve"] ∧
    (handle_event "1.0" ⟨some "u", none⟩ [MessageSegment.Text ".mc"]
        none (some "There are 2 of a max of 20 players online: Alex, Steve")).replies
      = ["当前在线玩家(2 / 40): Alex, Steve"] ∧
    query_online_players
        (some "There are 0 of a max of 20 players online: ") = some [] ∧
    (handle_event "1.0" ⟨some "u", none⟩ [MessageSegment.Text ".mc"]
        none (some "There are 0 of a max of 20 players online: ")).replies
      = ["当前没有在线玩家。"] ∧
    (∀ resp : Option String,
      query_online_players resp = none ∨
        ∃ ps, query_online_players resp = some ps) ∧
    (handle_event "1.0" ⟨some "u", none⟩ [MessageSegment.Text ".mc"]
        none (some "Server did not understand")).replies
      = ["无法获取在线玩家列表，请检查 RCON 连接。"] := by
  refine ⟨by decide, by decide, by decide, by decide, ?_, by decide⟩
  intro resp
  cases h : query_online_players resp with
  | none => exact Or.inl rfl
  | some ps => exact Or.inr ⟨ps, rfl⟩

/-- C8: the effects of handling an event do not depend on the result of
the forwarding `execute_rcon_command` call at all (the Python code
discards it), so a forwarding failure never produces a chat reply; for a
text that is not a recognized command (forwarding is then the only console
activity) no reply is produced whatever the forwarding outcome; whereas a
failure of the `".mc"` player query IS reported back to chat. -/
theorem forward_failure_invisible_query_failure_reported (v : String)
    (sender : Sender) (message : List MessageSegment)
    (fr fr' qr : Option String) :
    handle_event v sender message fr qr = handle_event v sender message fr' qr ∧
    ((pyStrip (parse__chain message) ≠ ".mc" ∧
        pyStrip (parse__chain message) ≠ ".ping" ∧
        pyStrip (parse__chain message) ≠ ".version") →
      (handle_event v sender message fr qr).replies = []) ∧
    (pyStrip (parse__chain message) = ".mc" → qr = none →
      (handle_event v sender message fr qr).replies
        = ["无法获取在线玩家列表，请检查 RCON 连接。"]) := by
  refine ⟨rfl, ?_, ?_⟩
  · rintro ⟨h1, h2, h3⟩
    simp [handle_event, h1, h2, h3]
  · intro h1 h2
    subst h2
    simp [handle_event, h1, query_online_players]

/-- Witness for C8: a plain-text event whose forwarding failed
(`fr = none`) produces no chat reply. -/
theorem forward_failure_invisible_query_failure_reported_witness :
    (handle_event "1.0" ⟨some "u", none⟩ [MessageSegment.Text "hi"]
        none none).replies = [] :=
  (forward_failure_invisible_query_failure_reported "1.0" ⟨some "u", none⟩
    [MessageSegment.Text "hi"] none (some "ok") none).2.1
    ⟨by decide, by decide, by decide⟩

/-- C9: every non-empty stripped text whose first character is not `"."`
is forwarded to the game with the sender's resolved display name
(`card` if truthy, else `nickname`, else the placeholder "未知用户") and
produces no other effect; a text that strips to the empty string (only
whitespace) or a chain made only of non-rendering segments produces no
effect at all — in particular it is never forwarded. -/
theorem plain_text_forwarded_whitespace_never (v : String) (sender : Sender)
    (message : List MessageSegment) (fr qr : Option String) :
    ((pyStrip (parse__chain message) ≠ "" ∧
        (pyStrip (parse__chain message)).data.head? ≠ some '.') →
      handle_event v sender message fr qr =
        ⟨[send_to_mc (resolve_display_name sender)
            (pyStrip (parse__chain message))], []⟩) ∧
    (pyStrip (parse__chain message) = "" →
      handle_event v sender message fr qr = ⟨[], []⟩) ∧
    ((∀ seg ∈ message, seg = MessageSegment.UnknownMessageSegment) →
      handle_event v sender message fr qr = ⟨[], []⟩) := by
  have hempty : pyStrip (parse__chain message) = "" →
      handle_event v sender message fr qr = ⟨[], []⟩ := by
    intro h
    simp [handle_event, h]
  refine ⟨?_, hempty, ?_⟩
  · rintro ⟨hne, hdot⟩
    have h1 : pyStrip (parse__chain message) ≠ ".mc" := by
      intro e; exact hdot (by rw [e]; rfl)
    have h2 : pyStrip (parse__chain message) ≠ ".ping" := by
      intro e; exact hdot (by rw [e]; rfl)
    have h3 : pyStrip (parse__chain message) ≠ ".version" := by
      intro e; exact hdot (by rw [e]; rfl)
    simp [handle_event, hne, h1, h2, h3]
  · intro hall
    apply hempty
    rw [parse_chain_all_unknown message hall]
    rfl

/-- Witness for C9 at a concrete plain-text event with padding whitespace:
forwarded once with the resolved display name, no reply. -/
theorem plain_text_forwarded_whitespace_never_witness :
    handle_event "1.0" ⟨none, some "bob"⟩ [MessageSegment.Text "  hello "]
        none none =
      ⟨[send_to_mc (resolve_display_name ⟨none, some "bob"⟩)
          (pyStrip (parse__chain [MessageSegment.Text "  hello "]))], []⟩ :=
  (plain_text_forwarded_whitespace_never "1.0" ⟨none, some "bob"⟩
    [MessageSegment.Text "  hello "] none none).1 ⟨by decide, by decide⟩
